import Mathlib

/-!
Shallow embedding of the tiled-capture and composition engine of the
full-page screenshot extension (src/contents/screenshot-handler.ts and
src/background.ts), with theorems settling the specification's claims.
Machine integers are modelled as Nat/Int; the capture primitive, DOM and
message bus appear as explicit inputs to the embedded functions.
-/

namespace Screenshot

/-- Natural-number ceiling division: the value of `Math.ceil(a / b)` for a
nonnegative integer `a` and a positive integer `b`. -/
def ceilDiv (a b : Nat) : Nat := (a + b - 1) / b

/-- A planned tile: the scroll origin targeted for one snapshot. -/
structure TileSpec where
  originX : Nat
  originY : Nat
deriving DecidableEq, Repr

/-- Tile plan of `captureFullPage` (screenshot-handler.ts lines 100-106 and
154-175): `verticalScreenshots = Math.ceil(pageHeight / viewportHeight)`,
`horizontalScreenshots = Math.ceil(pageWidth / viewportWidth)`, and the nested
loops `for row ... for col ...` scroll to
`(col * viewportWidth, row * viewportHeight)`, row-major. -/
def planFullSurfaceTiles (pageW pageH vpW vpH : Nat) : List TileSpec :=
  (List.range (ceilDiv pageH vpH)).flatMap fun row =>
    (List.range (ceilDiv pageW vpW)).map fun col =>
      { originX := col * vpW, originY := row * vpH }

lemma length_grid (g : Nat → Nat → TileSpec) (h : Nat) (v : Nat) :
    ((List.range v).flatMap fun row => (List.range h).map (g row)).length = v * h := by
  induction v with
  | zero => simp
  | succ n ih =>
      rw [List.range_succ, List.flatMap_append, List.length_append, ih]
      simp [Nat.succ_mul]

lemma getElem?_grid (g : Nat → Nat → TileSpec) (h : Nat) :
    ∀ v r c : Nat, r < v → c < h →
      ((List.range v).flatMap fun row => (List.range h).map (g row))[r * h + c]?
        = some (g r c) := by
  intro v
  induction v with
  | zero => intro r c hr _; exact absurd hr (Nat.not_lt_zero r)
  | succ n ih =>
      intro r c hr hc
      rw [List.range_succ, List.flatMap_append]
      rcases Nat.lt_succ_iff_lt_or_eq.mp hr with hlt | heq
      · have hidx : r * h + c < n * h := by
          have h1 : r * h + h ≤ n * h := by
            have := Nat.succ_le_of_lt hlt
            calc r * h + h = (r + 1) * h := (Nat.succ_mul r h).symm
              _ ≤ n * h := Nat.mul_le_mul_right h this
          omega
        rw [List.getElem?_append_left (by rw [length_grid]; exact hidx)]
        exact ih r c hlt hc
      · subst heq
        have hlen : ((List.range r).flatMap fun row => (List.range h).map (g row)).length
            = r * h := length_grid g h r
        rw [List.getElem?_append_right (by rw [hlen]; exact Nat.le_add_right _ _)]
        simp only [hlen, Nat.add_sub_cancel_left]
        simp [List.getElem?_map, List.getElem?_range hc]

/-- C1: for positive surface and viewport sizes the full-surface tile plan has
exactly `ceil(pageH/vpH) * ceil(pageW/vpW)` tiles, enumerated row-major, and
the tile at grid cell (row, col) has origin (col*vpW, row*vpH). -/
theorem c1_planFullSurfaceTiles_correct (pageW pageH vpW vpH r c : Nat)
    (_hpW : 0 < pageW) (_hpH : 0 < pageH) (_hvW : 0 < vpW) (_hvH : 0 < vpH)
    (hr : r < ceilDiv pageH vpH) (hc : c < ceilDiv pageW vpW) :
    (planFullSurfaceTiles pageW pageH vpW vpH).length
        = ceilDiv pageH vpH * ceilDiv pageW vpW ∧
    (planFullSurfaceTiles pageW pageH vpW vpH)[r * ceilDiv pageW vpW + c]?
        = some { originX := c * vpW, originY := r * vpH } := by
  constructor
  · exact length_grid _ _ _
  · exact getElem?_grid _ _ _ r c hr hc

/-- Witness for C1 at the spec's end-to-end scenario: an 1800 x 5000 surface
with an 800 x 600 viewport yields 9 * 3 = 27 tiles, and tile (row 2, col 1)
has origin (800, 1200). -/
theorem c1_witness :
    (planFullSurfaceTiles 1800 5000 800 600).length
        = ceilDiv 5000 600 * ceilDiv 1800 800 ∧
    (planFullSurfaceTiles 1800 5000 800 600)[2 * ceilDiv 1800 800 + 1]?
        = some { originX := 1 * 800, originY := 2 * 600 } :=
  c1_planFullSurfaceTiles_correct 1800 5000 800 600 2 1 (by decide) (by decide)
    (by decide) (by decide) (by decide) (by decide)

/-- One collected screenshot, in arrival order (screenshot-handler.ts lines
139-144): the decoded raster (modelled abstractly as the pixel function the
tile contributes after `drawImage` scales it to the viewport size) together
with the scroll position the response reported. -/
structure ScreenshotData where
  raster : Nat → Nat → Nat
  scrollX : Int
  scrollY : Int

/-- A canvas: pixel value at each coordinate, `none` where nothing was drawn. -/
def Canvas : Type := Nat → Nat → Option Nat

/-- `ctx.drawImage(img, dx, dy, w, h)`: paints `raster` onto the destination
rectangle `[dx, dx+w) x [dy, dy+h)`, overwriting what was below. -/
def drawImage (canvas : Canvas) (raster : Nat → Nat → Nat) (dx dy w h : Nat) : Canvas :=
  fun x y =>
    if dx ≤ x ∧ x < dx + w ∧ dy ≤ y ∧ y < dy + h then
      some (raster (x - dx) (y - dy))
    else canvas x y

/-- The drawing loop of `combineAndCopyScreenshots` (lines 734-757): the i-th
screenshot of `this.screenshots` (arrival order) is drawn at canvas position
`(0, i * viewportHeight)` with destination size viewportWidth x
viewportHeight; the stored scroll position is not consulted. `start` is the
index of the first remaining screenshot. -/
def drawAll (vpW vpH : Nat) : List ScreenshotData → Nat → Canvas → Canvas
  | [], _, canvas => canvas
  | s :: rest, start, canvas =>
      drawAll vpW vpH rest (start + 1) (drawImage canvas s.raster 0 (start * vpH) vpW vpH)

/-- The composed output raster of `combineAndCopyScreenshots` (lines 720-760):
a pageWidth x pageHeight canvas filled by `drawAll` from the empty canvas. -/
def combineScreenshots (shots : List ScreenshotData) (pageW pageH vpW vpH : Nat) : Canvas :=
  fun x y =>
    if x < pageW ∧ y < pageH then drawAll vpW vpH shots 0 (fun _ _ => none) x y
    else none

lemma drawAll_of_lt (vpW vpH : Nat) :
    ∀ (shots : List ScreenshotData) (start : Nat) (canvas : Canvas) (x y : Nat),
      y < start * vpH → drawAll vpW vpH shots start canvas x y = canvas x y := by
  intro shots
  induction shots with
  | nil => intro start canvas x y _; rfl
  | cons s rest ih =>
      intro start canvas x y hy
      have hy' : y < (start + 1) * vpH := by
        calc y < start * vpH := hy
          _ ≤ (start + 1) * vpH := Nat.mul_le_mul_right vpH (Nat.le_succ start)
      rw [drawAll, ih (start + 1) _ x y hy']
      simp only [drawImage]
      rw [if_neg (fun h => absurd h.2.2.1 (Nat.not_le_of_lt hy))]

lemma drawAll_band (vpW vpH : Nat) :
    ∀ (shots : List ScreenshotData) (start : Nat) (canvas : Canvas)
      (i : Nat) (hi : i < shots.length) (x dy : Nat),
      x < vpW → dy < vpH →
      drawAll vpW vpH shots start canvas x ((start + i) * vpH + dy)
        = some ((shots.get ⟨i, hi⟩).raster x dy) := by
  intro shots
  induction shots with
  | nil => intro start canvas i hi; exact absurd hi (Nat.not_lt_zero i)
  | cons s rest ih =>
      intro start canvas i hi x dy hx hdy
      match i with
      | 0 =>
          rw [drawAll]
          have hmul : (start + 1) * vpH = start * vpH + vpH := Nat.succ_mul start vpH
          simp only [Nat.add_zero]
          have hlow : start * vpH + dy < (start + 1) * vpH := by omega
          rw [drawAll_of_lt vpW vpH rest (start + 1) _ x _ hlow]
          simp only [drawImage]
          rw [if_pos ⟨Nat.zero_le x, by omega, Nat.le_add_right _ _, by omega⟩]
          simp [Nat.add_sub_cancel_left]
      | j + 1 =>
          rw [drawAll]
          have hj : j < rest.length := Nat.lt_of_succ_lt_succ hi
          have harith : (start + (j + 1)) = ((start + 1) + j) := by omega
          rw [harith]
          exact ih (start + 1) _ j hj x dy hx hdy

/-- Counterexample input for C2: two tile results of the same 1 x 2-tile
full-page capture (viewport 1 x 1, page 1 x 2), delivered in the two possible
completion orders. `shotA` is the tile requested at scroll origin (0, 0) and
`shotB` the tile requested at (0, 1); their rasters differ. -/
def shotA : ScreenshotData := { raster := fun _ _ => 0, scrollX := 0, scrollY := 0 }

/-- Second tile of the C2 counterexample capture; see `shotA`. -/
def shotB : ScreenshotData := { raster := fun _ _ => 1, scrollX := 0, scrollY := 1 }

/-- Counterexample to C2 as stated: the composed raster of a full-surface
capture is NOT independent of the order in which the tile responses arrive.
`combineAndCopyScreenshots` draws the i-th ARRIVING screenshot at
`(0, i * viewportHeight)` (line 746: `canvasY = i * viewportHeight`), ignoring
the scroll position recorded with the response, so swapping the completion
order of the two tiles of a 1 x 2 capture swaps their bands in the output:
at pixel (0, 0) one order yields tile A's pixel, the other tile B's. -/
theorem c2_counterexample :
    combineScreenshots [shotA, shotB] 1 2 1 1
      ≠ combineScreenshots [shotB, shotA] 1 2 1 1 := by
  intro h
  have h0 := congrFun (congrFun h 0) 0
  simp only [combineScreenshots, drawAll, drawImage, shotA, shotB] at h0
  simp at h0

/-- C2 amended: composition is keyed by completion order, not by tile
index/origin. For every arrival sequence, the i-th arriving screenshot is
drawn at `(0, i * viewportHeight)`: within the canvas, pixel
`(x, i * viewportHeight + dy)` (for `x < viewportWidth`, `dy <
viewportHeight`) equals that screenshot's raster pixel — regardless of the
scroll origin the response reported. The output therefore reproduces the
planned layout only when responses arrive in request order. -/
theorem c2_amended_composition_by_arrival_order
    (shots : List ScreenshotData) (pageW pageH vpW vpH i x dy : Nat)
    (hi : i < shots.length) (hx : x < vpW) (hdy : dy < vpH)
    (hxb : x < pageW) (hyb : i * vpH + dy < pageH) :
    combineScreenshots shots pageW pageH vpW vpH x (i * vpH + dy)
      = some ((shots.get ⟨i, hi⟩).raster x dy) := by
  rw [combineScreenshots]
  simp only [hxb, hyb, and_self, if_pos]
  have := drawAll_band vpW vpH shots 0 (fun _ _ => none) i hi x dy hx hdy
  simpa using this

/-- Witness for C2's amended theorem: in the arrival order `[shotB, shotA]`,
the first-arriving screenshot (`shotB`, requested at scroll origin (0, 1))
occupies the TOP band of the output — its pixel value 1 appears at (0, 0). -/
theorem c2_witness :
    combineScreenshots [shotB, shotA] 1 2 1 1 0 (0 * 1 + 0) = some 1 :=
  c2_amended_composition_by_arrival_order [shotB, shotA] 1 2 1 1 0 0 0
    (by decide) (by decide) (by decide) (by decide) (by decide)

/-- Kinds of `screenshot-error` responses, distinguished exactly as the code
does: `message.error.includes("MAX_CAPTURE_VISIBLE_TAB_CALLS_PER_SECOND")`
marks the rate-limited case; every other error string is `other`. -/
inductive ErrKind
  | rateLimited
  | other (code : Nat)
deriving DecidableEq, Repr

/-- A runtime message delivered to the content script's listeners: either a
`screenshot-captured` response (with its data URL, modelled as an identifier,
and the scroll position the background echoed back) or a `screenshot-error`
response. -/
inductive Message
  | captured (dataUrl : Nat) (sx sy : Int)
  | error (e : ErrKind)
deriving DecidableEq, Repr

/-- The per-capture mutable state of the `FullPageScreenshot` instance that a
full-page session reads and writes: the `isCapturing` flag, the shared
`screenshots` array (dataUrl identifier and stored scroll position, in
arrival order) and the session's `capturedCount` counter. -/
structure SessionState where
  isCapturing : Bool
  screenshots : List (Nat × Int × Int)
  capturedCount : Nat
deriving DecidableEq, Repr

/-- Entry of `captureFullPage` (lines 60-68): if a capture is already in
progress the flag is simply reset ("resetting..."), then the new session sets
`isCapturing := true`, clears `screenshots` and zeroes its counter. This is
the code's only supersede mechanism — no generation token exists anywhere in
the source. -/
def captureFullPageStart (_st : SessionState) : SessionState :=
  { isCapturing := true, screenshots := [], capturedCount := 0 }

/-- The session's `globalHandler` (lines 136-148): a `screenshot-captured`
message is appended to `this.screenshots` whenever `this.isCapturing` is
true — there is no origin or token check — and every other message
(including `screenshot-error`) is ignored. -/
def globalHandler (st : SessionState) (m : Message) : SessionState :=
  match m with
  | .captured d sx sy =>
      if st.isCapturing then
        { st with
          screenshots := st.screenshots ++ [(d, sx, sy)]
          capturedCount := st.capturedCount + 1 }
      else st
  | .error _ => st

/-- Counterexample to C3 as stated: a late response belonging to a superseded
capture request DOES appear in the new session's collected results. Trace: a
first `captureFullPage` starts and dispatches a tile request; a second
`captureFullPage` supersedes it (lines 60-68 reset the flag and clear the
array, the only invalidation the code has); the first request's response
`Message.captured 7 0 0` then arrives. Because `globalHandler` filters only
on the boolean `isCapturing` — which the new session set to true — the stale
response is appended to the new session's `screenshots` array instead of
being discarded. -/
theorem c3_counterexample :
    (globalHandler
        (captureFullPageStart
          (captureFullPageStart { isCapturing := false, screenshots := [], capturedCount := 0 }))
        (.captured 7 0 0)).screenshots ≠ [] := by
  decide

/-- C3 amended: the code has no generation token; the only filter on incoming
snapshot responses is the shared `isCapturing` boolean. A response delivered
while no capture is active is discarded (the handler leaves the state
unchanged), but a late response from a superseded capture that arrives while
the new capture is active is appended to the new session's results: after the
supersede trace of the counterexample, the new session's array holds exactly
the stale tile. -/
theorem c3_amended_boolean_flag_filter :
    (∀ (st : SessionState) (m : Message), st.isCapturing = false → globalHandler st m = st) ∧
    (globalHandler
        (captureFullPageStart
          (captureFullPageStart { isCapturing := false, screenshots := [], capturedCount := 0 }))
        (.captured 7 0 0)).screenshots = [(7, 0, 0)] := by
  constructor
  · intro st m hidle
    cases m with
    | captured d sx sy => simp [globalHandler, hidle]
    | error e => rfl
  · decide

/-- Witness for C3's amended theorem at a concrete idle state and message:
with `isCapturing = false` the handler discards the response. -/
theorem c3_witness :
    globalHandler { isCapturing := false, screenshots := [], capturedCount := 0 }
        (.captured 3 0 0)
      = { isCapturing := false, screenshots := [], capturedCount := 0 } :=
  c3_amended_boolean_flag_filter.1
    { isCapturing := false, screenshots := [], capturedCount := 0 } (.captured 3 0 0) rfl

/-- What one invocation of `captureCurrentView`'s `messageHandler` (lines
330-366) does with a delivered message, for the tile requested at scroll
origin `(sx, sy)`. -/
inductive CVAction
  | resolveTile (dataUrl : Nat) (sx sy : Int)
  | ignore
  | retryAfter (delayMs : Nat) (sx sy : Int)
  | failWith (e : ErrKind)
deriving DecidableEq, Repr

/-- The `messageHandler` of `captureCurrentView` (lines 330-366): a
`screenshot-captured` response within 5px of the requested origin on both
axes resolves the tile (pushing it with the REQUESTED coordinates, lines
340-345); a mismatched captured response is ignored (line 349); a
`screenshot-error` carrying the rate-limit marker schedules a retry of the
very same `(scrollX, scrollY)` after a 2000ms delay (lines 356-361); any
other error rejects the tile's promise (line 363). -/
def messageHandler (sx sy : Int) (m : Message) : CVAction :=
  match m with
  | .captured d mx my =>
      if (mx - sx).natAbs ≤ 5 ∧ (my - sy).natAbs ≤ 5 then .resolveTile d sx sy
      else .ignore
  | .error .rateLimited => .retryAfter 2000 sx sy
  | .error (.other c) => .failWith (.other c)

/-- Counterexample to C5 as stated: in the full-page capture path tiles are
requested fire-and-forget (line 172) and responses are collected only by
`globalHandler`, which IGNORES `screenshot-error` messages entirely (its
only branch matches `screenshot-captured`, line 137). A `RateLimited`
response delivered mid-capture therefore triggers no retry of the tile and
changes nothing: the session state is returned untouched, the tile stays
missing, and the session later fails through the 30s completion timeout
rather than the claimed transparent retry. -/
theorem c5_counterexample :
    globalHandler { isCapturing := true, screenshots := [], capturedCount := 0 }
        (.error .rateLimited)
      = { isCapturing := true, screenshots := [], capturedCount := 0 } := by
  decide

/-- C5 amended: the 2-second same-tile retry for `RateLimited` lives in the
single-view capture path only. `captureCurrentView`'s handler maps a
rate-limited error for the tile at `(sx, sy)` to a retry of exactly that
tile after a 2000ms backoff and never to a failure, and a captured response
resolves only the requesting tile; in the full-page loop, by contrast, the
session handler ignores error responses altogether, so a rate-limited tile
is simply never collected there. -/
theorem c5_amended_rateLimited_retry :
    (∀ sx sy : Int,
        messageHandler sx sy (.error .rateLimited) = .retryAfter 2000 sx sy ∧
        ∀ e : ErrKind, messageHandler sx sy (.error .rateLimited) ≠ .failWith e) ∧
    (∀ st : SessionState, globalHandler st (.error .rateLimited) = st) := by
  refine ⟨fun sx sy => ⟨rfl, fun e h => ?_⟩, fun st => rfl⟩
  simp [messageHandler] at h

/-- Witness for C5's amended theorem at the tile requested at origin
(800, 1200): its rate-limited response is retried at (800, 1200) after
2000ms, and the mid-capture session state is left unchanged by the same
response in the full-page path. -/
theorem c5_witness :
    messageHandler 800 1200 (.error .rateLimited) = .retryAfter 2000 800 1200 ∧
    globalHandler { isCapturing := true, screenshots := [(7, 0, 0)], capturedCount := 1 }
        (.error .rateLimited)
      = { isCapturing := true, screenshots := [(7, 0, 0)], capturedCount := 1 } :=
  ⟨(c5_amended_rateLimited_retry.1 800 1200).1,
   c5_amended_rateLimited_retry.2
     { isCapturing := true, screenshots := [(7, 0, 0)], capturedCount := 1 }⟩

/-- A rectangle `{x, y, width, height}` in surface coordinates. -/
structure Rect where
  x : Int
  y : Int
  width : Int
  height : Int
deriving DecidableEq, Repr

/-- Standard rectangle intersection (spec section 4.1 `intersect`), with
corners `x1 = max(a.x, b.x)`, `x2 = min(a.x + a.width, b.x + b.width)` and
likewise for y: `none` when the overlap `x2 - x1` by `y2 - y1` is empty. -/
def intersect (a b : Rect) : Option Rect :=
  if min (a.x + a.width) (b.x + b.width) - max a.x b.x ≤ 0 ∨
     min (a.y + a.height) (b.y + b.height) - max a.y b.y ≤ 0 then none
  else some { x := max a.x b.x, y := max a.y b.y,
              width := min (a.x + a.width) (b.x + b.width) - max a.x b.x,
              height := min (a.y + a.height) (b.y + b.height) - max a.y b.y }

/-- The per-tile overlap computation of `captureRegionMultiScroll`'s
composition loop (lines 1167-1179): `overlapX1 = max(rect.x, tile.x)`,
`overlapX2 = min(rect.x + rect.width, tile.x + viewportWidth)` (likewise for
y), `ow = overlapX2 - overlapX1`, `oh = overlapY2 - overlapY1`, skip when
`ow <= 0 || oh <= 0`, and otherwise draw into the output at destination
rectangle `(overlapX1 - rect.x, overlapY1 - rect.y, ow, oh)`. -/
def drawRegionTile (rect : Rect) (tx ty vpW vpH : Int) : Option Rect :=
  if min (rect.x + rect.width) (tx + vpW) - max rect.x tx ≤ 0 ∨
     min (rect.y + rect.height) (ty + vpH) - max rect.y ty ≤ 0 then none
  else some { x := max rect.x tx - rect.x, y := max rect.y ty - rect.y,
              width := min (rect.x + rect.width) (tx + vpW) - max rect.x tx,
              height := min (rect.y + rect.height) (ty + vpH) - max rect.y ty }

/-- C4: in region-mode composition each tile's drawn contribution is exactly
`intersect(targetRect, tileRect)` translated into output coordinates by
`(-rect.x, -rect.y)` — in particular tiles with empty intersection are
skipped — and every drawn destination rectangle lies inside the
`rect.width x rect.height` output canvas, so no pixel outside the target
Rect is ever drawn. -/
theorem c4_regionComposition_clipped (rect : Rect) (tx ty vpW vpH : Int) :
    drawRegionTile rect tx ty vpW vpH
      = (intersect rect { x := tx, y := ty, width := vpW, height := vpH }).map
          (fun o => { x := o.x - rect.x, y := o.y - rect.y,
                      width := o.width, height := o.height }) ∧
    ∀ d : Rect, drawRegionTile rect tx ty vpW vpH = some d →
      0 ≤ d.x ∧ 0 ≤ d.y ∧ d.x + d.width ≤ rect.width ∧ d.y + d.height ≤ rect.height := by
  constructor
  · rw [drawRegionTile, intersect]
    by_cases hcond :
        min (rect.x + rect.width) (tx + vpW) - max rect.x tx ≤ 0 ∨
        min (rect.y + rect.height) (ty + vpH) - max rect.y ty ≤ 0
    · rw [if_pos hcond, if_pos hcond]; rfl
    · rw [if_neg hcond, if_neg hcond]; rfl
  · intro d hd
    rw [drawRegionTile] at hd
    by_cases hcond :
        min (rect.x + rect.width) (tx + vpW) - max rect.x tx ≤ 0 ∨
        min (rect.y + rect.height) (ty + vpH) - max rect.y ty ≤ 0
    · rw [if_pos hcond] at hd
      exact absurd hd (Option.noConfusion)
    · rw [if_neg hcond] at hd
      injection hd with hd
      subst hd
      have h1 : min (rect.x + rect.width) (tx + vpW) ≤ rect.x + rect.width :=
        min_le_left _ _
      have h2 : rect.x ≤ max rect.x tx := le_max_left _ _
      have h3 : min (rect.y + rect.height) (ty + vpH) ≤ rect.y + rect.height :=
        min_le_left _ _
      have h4 : rect.y ≤ max rect.y ty := le_max_left _ _
      refine ⟨?_, ?_, ?_, ?_⟩ <;> simp only <;> omega

/-- Witness for C4 at a concrete partially-overlapping tile: target rect
(3, 4, 10, 10), tile at (8, 8) with an 8 x 8 viewport. The drawn
sub-rectangle is the translated intersection (5, 4, 5, 6) and lies inside
the 10 x 10 output. -/
theorem c4_witness :
    drawRegionTile { x := 3, y := 4, width := 10, height := 10 } 8 8 8 8
      = (intersect { x := 3, y := 4, width := 10, height := 10 }
            { x := 8, y := 8, width := 8, height := 8 }).map
          (fun o => { x := o.x - (3 : Int), y := o.y - (4 : Int),
                      width := o.width, height := o.height }) ∧
    (0 : Int) ≤ 5 ∧ (0 : Int) ≤ 4 ∧ (5 : Int) + 5 ≤ 10 ∧ (4 : Int) + 6 ≤ 10 :=
  ⟨(c4_regionComposition_clipped { x := 3, y := 4, width := 10, height := 10 } 8 8 8 8).1,
   (c4_regionComposition_clipped { x := 3, y := 4, width := 10, height := 10 } 8 8 8 8).2
     { x := 5, y := 4, width := 5, height := 6 } (by decide)⟩

/-- Outcome of one `captureTile(x, y)` attempt in `captureRegionMultiScroll`
(lines 1119-1139): either a captured tile (dataUrl identifier plus its scroll
origin) or an error response. -/
inductive TileOutcome
  | ok (dataUrl : Nat) (x y : Int)
  | err (e : ErrKind)
deriving DecidableEq, Repr

/-- What `await captureTile(x, y)` (line 1150) eventually yields for one
attempt: the pushed tile on a matching `screenshot-captured` response, and
no value at all on a `screenshot-error` response — the `rej` at line 1130
rejects only the inner promise awaited by the async executor; the
executor's own rejected promise is discarded, and the outer
`new Promise<void>((resolve) => ...)` of `captureTile` (line 1119) never
binds a reject, so on an error it never settles. -/
def captureTileResult (o : TileOutcome) : Option (Nat × Int × Int) :=
  match o with
  | .ok d x y => some (d, x, y)
  | .err _ => none

/-- The tile loop of `captureRegionMultiScroll` (lines 1146-1157), processing
the planned tiles in order: each iteration awaits `captureTile`; when that
promise settles the tile was pushed onto `tiles` and the loop continues, and
when it never settles (any `screenshot-error` on the attempt) the loop hangs
at that `await` forever — modelled as `none` — so the `catch` at lines
1153-1155 never runs for capture errors and no later tile is attempted. -/
def runRegionLoop : List TileOutcome → Option (List (Nat × Int × Int))
  | [] => some []
  | o :: rest =>
      match captureTileResult o with
      | some t => (runRegionLoop rest).map fun ts => t :: ts
      | none => none

/-- The draw operations the composition of `captureRegionMultiScroll` (lines
1162-1180) performs on the collected `tiles` list: every tile with non-empty
overlap is drawn at its clipped destination rectangle on the
`rect.width x rect.height` canvas. -/
def regionDrawOps (rect : Rect) (tiles : List (Nat × Int × Int)) (vpW vpH : Int) :
    List (Nat × Rect) :=
  tiles.filterMap fun t =>
    (drawRegionTile rect t.2.1 t.2.2 vpW vpH).map fun dest => (t.1, dest)

/-- Terminal outcome of `captureRegionMultiScroll` for a list of tile attempt
outcomes: `none` when the run never terminates — the loop hung on a tile
whose capture errored — and otherwise the composed draw list of the
collected tiles (lines 1159-1185); the function has no path that rethrows a
tile's error. -/
def regionSessionOutcome (rect : Rect) (outcomes : List TileOutcome) (vpW vpH : Int) :
    Option (Except ErrKind (List (Nat × Rect))) :=
  (runRegionLoop outcomes).map fun tiles => .ok (regionDrawOps rect tiles vpW vpH)

lemma runRegionLoop_eq_none_iff (outcomes : List TileOutcome) :
    runRegionLoop outcomes = none ↔ ∃ e, TileOutcome.err e ∈ outcomes := by
  induction outcomes with
  | nil => simp [runRegionLoop]
  | cons o rest ih =>
      cases o with
      | ok d x y => simp [runRegionLoop, captureTileResult, ih]
      | err e => simp [runRegionLoop, captureTileResult]

/-- Counterexample to C6 as stated: in a region capture over target rect
(0, 0, 10, 10) with an 8 x 8 viewport, the first tile succeeds and the
second fails with a hard, non-rate-limited error. The claim demands the
session fail immediately with that tile's error; instead the swallowed
rejection leaves `await captureTile` pending forever, so the run produces no
outcome at all — in particular the session never fails with the tile's
error (and never reaches composition). -/
theorem c6_counterexample :
    regionSessionOutcome { x := 0, y := 0, width := 10, height := 10 }
        [.ok 1 0 0, .err (.other 0)] 8 8 = none ∧
    regionSessionOutcome { x := 0, y := 0, width := 10, height := 10 }
        [.ok 1 0 0, .err (.other 0)] 8 8 ≠ some (.error (.other 0)) := by
  have hnone : regionSessionOutcome { x := 0, y := 0, width := 10, height := 10 }
      [.ok 1 0 0, .err (.other 0)] 8 8 = none := rfl
  refine ⟨hnone, ?_⟩
  intro h
  rw [hnone] at h
  exact Option.noConfusion h

/-- C6 amended: a non-RateLimited error on a region tile does not abort the
session with that error. The run diverges exactly when some tile's capture
errored — the rejection is swallowed inside `captureTile`'s promise
executor, hanging the loop at that tile's `await` — so the session never
terminates with a tile's error and a failed run produces no composition at
all, not even a partial one; whenever the loop does terminate, the session
composes exactly the collected tiles. -/
theorem c6_amended_hard_error_hangs (rect : Rect) (vpW vpH : Int)
    (outcomes : List TileOutcome) :
    (regionSessionOutcome rect outcomes vpW vpH = none ↔
      ∃ e, TileOutcome.err e ∈ outcomes) ∧
    (∀ e, regionSessionOutcome rect outcomes vpW vpH ≠ some (.error e)) ∧
    (∀ tiles, runRegionLoop outcomes = some tiles →
      regionSessionOutcome rect outcomes vpW vpH
        = some (.ok (regionDrawOps rect tiles vpW vpH))) := by
  refine ⟨?_, ?_, ?_⟩
  · rw [regionSessionOutcome, Option.map_eq_none']
    exact runRegionLoop_eq_none_iff outcomes
  · intro e h
    rw [regionSessionOutcome] at h
    cases hr : runRegionLoop outcomes with
    | none => rw [hr] at h; exact Option.noConfusion h
    | some tiles =>
        rw [hr, Option.map_some'] at h
        injection h with h
        exact Except.noConfusion h
  · intro tiles h
    rw [regionSessionOutcome, h, Option.map_some']

/-- Witness for C6's amended theorem: an error-free single-tile run composes
that tile, and a run whose only tile errors produces no outcome. -/
theorem c6_witness :
    regionSessionOutcome { x := 0, y := 0, width := 10, height := 10 }
        [.ok 1 0 0] 8 8
      = some (.ok (regionDrawOps { x := 0, y := 0, width := 10, height := 10 }
          [(1, 0, 0)] 8 8)) ∧
    regionSessionOutcome { x := 0, y := 0, width := 10, height := 10 }
        [.err (.other 0)] 8 8 = none :=
  ⟨(c6_amended_hard_error_hangs { x := 0, y := 0, width := 10, height := 10 } 8 8
      [.ok 1 0 0]).2.2 [(1, 0, 0)] rfl,
   (c6_amended_hard_error_hangs { x := 0, y := 0, width := 10, height := 10 } 8 8
      [.err (.other 0)]).1.mpr ⟨.other 0, by decide⟩⟩

/-- The completion-wait loop of `captureFullPage` (lines 191-196):
`while (capturedCount < expectedScreenshots && waitTime < 30000) { sleep(500);
waitTime += 500 }`. `captured k` is the value of `capturedCount` observed
after `k` sleeps; the first argument of the recursion is the number of sleeps
performed so far and the second the number of 500ms sleeps still permitted by
`waitTime < 30000`. -/
def waitLoopAux (captured : Nat → Nat) (expected : Nat) : Nat → Nat → Nat
  | k, 0 => k
  | k, fuel + 1 =>
      if captured k < expected then waitLoopAux captured expected (k + 1) fuel else k

/-- The post-dispatch completion wait of `captureFullPage` (lines 189-200):
total milliseconds waited, and the outcome — the thrown
`Timeout: Only captured (capturedCount)/(expectedScreenshots) screenshots`
error, modelled as the pair of counts it reports, when tiles are still
missing when the loop exits, `ok` otherwise. -/
def waitForAllScreenshots (captured : Nat → Nat) (expected : Nat) :
    Nat × Except (Nat × Nat) Unit :=
  (500 * waitLoopAux captured expected 0 60,
   if captured (waitLoopAux captured expected 0 60) < expected then
     .error (captured (waitLoopAux captured expected 0 60), expected)
   else .ok ())

lemma waitLoopAux_le (captured : Nat → Nat) (expected : Nat) :
    ∀ (fuel k : Nat), waitLoopAux captured expected k fuel ≤ k + fuel := by
  intro fuel
  induction fuel with
  | zero => intro k; simp [waitLoopAux]
  | succ n ih =>
      intro k
      rw [waitLoopAux]
      by_cases h : captured k < expected
      · rw [if_pos h]
        calc waitLoopAux captured expected (k + 1) n ≤ (k + 1) + n := ih (k + 1)
          _ = k + (n + 1) := by omega
      · rw [if_neg h]; omega

lemma waitLoopAux_exhausted (captured : Nat → Nat) (expected : Nat) :
    ∀ (fuel k : Nat), captured (waitLoopAux captured expected k fuel) < expected →
      waitLoopAux captured expected k fuel = k + fuel := by
  intro fuel
  induction fuel with
  | zero => intro k _; simp [waitLoopAux]
  | succ n ih =>
      intro k h
      rw [waitLoopAux] at h ⊢
      by_cases hc : captured k < expected
      · rw [if_pos hc] at h ⊢
        rw [ih (k + 1) h]
        omega
      · rw [if_neg hc] at h
        exact absurd h hc

/-- C7: the completion wait is bounded — the loop sleeps for at most 30000ms
in total — and its outcome is determined by whether every tile arrived: if
tiles are still missing when the loop exits, the full 30 seconds elapsed and
the session fails with the partial-capture error reporting exactly how many
of the `expected` planned tiles had completed; if every tile arrived, the
wait succeeds. `(waitForAllScreenshots captured expected).1 / 500` is the
number of polls the loop performed. -/
theorem c7_completion_wait_bounded (captured : Nat → Nat) (expected : Nat) :
    (waitForAllScreenshots captured expected).1 ≤ 30000 ∧
    (captured ((waitForAllScreenshots captured expected).1 / 500) < expected →
      (waitForAllScreenshots captured expected).1 = 30000 ∧
      (waitForAllScreenshots captured expected).2
        = .error (captured ((waitForAllScreenshots captured expected).1 / 500),
                  expected)) ∧
    (expected ≤ captured ((waitForAllScreenshots captured expected).1 / 500) →
      (waitForAllScreenshots captured expected).2 = .ok ()) := by
  have hk : waitLoopAux captured expected 0 60 ≤ 60 := by
    have := waitLoopAux_le captured expected 60 0
    omega
  have hdiv : (waitForAllScreenshots captured expected).1 / 500
      = waitLoopAux captured expected 0 60 := by
    rw [waitForAllScreenshots]
    exact Nat.mul_div_cancel_left _ (by omega)
  refine ⟨?_, ?_, ?_⟩
  · rw [waitForAllScreenshots]
    calc 500 * waitLoopAux captured expected 0 60 ≤ 500 * 60 :=
        Nat.mul_le_mul_left 500 hk
      _ = 30000 := by norm_num
  · rw [hdiv]
    intro hlt
    have h60 : waitLoopAux captured expected 0 60 = 60 := by
      have := waitLoopAux_exhausted captured expected 60 0 hlt
      omega
    constructor
    · rw [waitForAllScreenshots, h60]
    · rw [waitForAllScreenshots]
      rw [if_pos hlt]
  · rw [hdiv]
    intro hge
    rw [waitForAllScreenshots]
    rw [if_neg (by omega)]

/-- Witness for C7 at two concrete runs: one where no tile ever arrives —
the loop waits the full 30000ms and fails with the error reporting 0 of 1
tiles — and one where all tiles arrive before the first poll, which
succeeds within the bound. -/
theorem c7_witness :
    ((waitForAllScreenshots (fun _ => 0) 1).1 = 30000 ∧
     (waitForAllScreenshots (fun _ => 0) 1).2 = .error (0, 1)) ∧
    ((waitForAllScreenshots (fun _ => 1) 1).1 ≤ 30000 ∧
     (waitForAllScreenshots (fun _ => 1) 1).2 = .ok ()) :=
  ⟨(c7_completion_wait_bounded (fun _ => 0) 1).2.1 Nat.zero_lt_one,
   ⟨(c7_completion_wait_bounded (fun _ => 1) 1).1,
    (c7_completion_wait_bounded (fun _ => 1) 1).2.2 (Nat.le_refl 1)⟩⟩

/-- What the scroll poll of `waitForScroll` reads at one animation-frame
tick: `window.scrollX`, `window.scrollY`, and the maximum scrollable
position derived from `scrollWidth - innerWidth` and
`scrollHeight - innerHeight` (lines 784-790). -/
structure ScrollObs where
  x : Int
  y : Int
  maxX : Int
  maxY : Int
deriving DecidableEq, Repr

/-- The per-tick convergence test of `waitForScroll` (lines 792-793):
`xMatches = Math.abs(currentX - targetX) < 10 || currentX >= maxScrollX`, and
likewise for y; the poll stops when both axes match. -/
def scrollMatches (targetX targetY : Int) (o : ScrollObs) : Bool :=
  (decide ((o.x - targetX).natAbs < 10) || decide (o.maxX ≤ o.x)) &&
  (decide ((o.y - targetY).natAbs < 10) || decide (o.maxY ≤ o.y))

/-- The `checkScroll` recursion of `waitForScroll` (lines 784-808): at each
tick it resolves if the position matches, resolves anyway once `attempts >=
maxAttempts` (= 60), and otherwise increments `attempts` and polls again on
the next animation frame. `obs t` is what the poll reads at tick `t`; the
result is the tick at which the promise resolves. The first argument is the
current `attempts` counter, the second the remaining budget. -/
def waitForScrollAux (obs : Nat → ScrollObs) (targetX targetY : Int) : Nat → Nat → Nat
  | attempts, 0 => attempts
  | attempts, fuel + 1 =>
      if scrollMatches targetX targetY (obs attempts) then attempts
      else waitForScrollAux obs targetX targetY (attempts + 1) fuel

/-- `waitForScroll(targetX, targetY)` (lines 779-810): the tick at which the
returned promise resolves; `maxAttempts = 60`. -/
def waitForScroll (obs : Nat → ScrollObs) (targetX targetY : Int) : Nat :=
  waitForScrollAux obs targetX targetY 0 60

lemma waitForScrollAux_le (obs : Nat → ScrollObs) (tX tY : Int) :
    ∀ (fuel a : Nat), waitForScrollAux obs tX tY a fuel ≤ a + fuel := by
  intro fuel
  induction fuel with
  | zero => intro a; simp [waitForScrollAux]
  | succ n ih =>
      intro a
      rw [waitForScrollAux]
      by_cases h : scrollMatches tX tY (obs a) = true
      · rw [if_pos h]; omega
      · rw [if_neg h]
        have := ih (a + 1)
        omega

lemma waitForScrollAux_matches (obs : Nat → ScrollObs) (tX tY : Int) :
    ∀ (fuel a : Nat), waitForScrollAux obs tX tY a fuel < a + fuel →
      scrollMatches tX tY (obs (waitForScrollAux obs tX tY a fuel)) = true := by
  intro fuel
  induction fuel with
  | zero => intro a h; rw [waitForScrollAux] at h; omega
  | succ n ih =>
      intro a h
      rw [waitForScrollAux] at h ⊢
      by_cases hm : scrollMatches tX tY (obs a) = true
      · rw [if_pos hm]; exact hm
      · rw [if_neg hm] at h ⊢
        exact ih (a + 1) (by omega)

lemma waitForScrollAux_first (obs : Nat → ScrollObs) (tX tY : Int) :
    ∀ (fuel a t : Nat), a ≤ t → t < waitForScrollAux obs tX tY a fuel →
      scrollMatches tX tY (obs t) = false := by
  intro fuel
  induction fuel with
  | zero => intro a t hat h; rw [waitForScrollAux] at h; omega
  | succ n ih =>
      intro a t hat h
      rw [waitForScrollAux] at h
      by_cases hm : scrollMatches tX tY (obs a) = true
      · rw [if_pos hm] at h; omega
      · rw [if_neg hm] at h
        rcases Nat.eq_or_lt_of_le hat with heq | hlt
        · subst heq; exact Bool.not_eq_true _ ▸ hm
        · exact ih (a + 1) t hlt h

/-- C8: `waitForScroll` is total and always resolves — at a tick bounded by
the 60-attempt cap. It resolves strictly before the cap only at the first
tick where the observed position matches (within 10px of the target on an
axis, or at that axis's maximum scroll position), no earlier tick matching;
if no tick up to the cap matches it still resolves (best effort) at the cap,
never rejecting. -/
theorem c8_waitForScroll_total_bounded (obs : Nat → ScrollObs) (tX tY : Int) :
    waitForScroll obs tX tY ≤ 60 ∧
    (waitForScroll obs tX tY < 60 →
      scrollMatches tX tY (obs (waitForScroll obs tX tY)) = true) ∧
    (∀ t, t < waitForScroll obs tX tY → scrollMatches tX tY (obs t) = false) := by
  refine ⟨?_, ?_, ?_⟩
  · have := waitForScrollAux_le obs tX tY 60 0
    rw [waitForScroll]
    omega
  · intro h
    exact waitForScrollAux_matches obs tX tY 60 0 (by rw [waitForScroll] at h; omega)
  · intro t ht
    exact waitForScrollAux_first obs tX tY 60 0 t (Nat.zero_le t) ht

/-- Witness for C8 at a surface already at the target: the poll resolves at
tick 0, which matches. -/
theorem c8_witness :
    waitForScroll (fun _ => { x := 0, y := 0, maxX := 100, maxY := 100 }) 0 0 ≤ 60 ∧
    scrollMatches 0 0
        ((fun _ => ({ x := 0, y := 0, maxX := 100, maxY := 100 } : ScrollObs))
          (waitForScroll (fun _ => { x := 0, y := 0, maxX := 100, maxY := 100 }) 0 0))
      = true :=
  ⟨(c8_waitForScroll_total_bounded (fun _ => { x := 0, y := 0, maxX := 100, maxY := 100 }) 0 0).1,
   (c8_waitForScroll_total_bounded (fun _ => { x := 0, y := 0, maxX := 100, maxY := 100 }) 0 0).2.1
     (by decide)⟩

/-- Observable steps of `createOffscreenForClipboard` (background.ts lines
197-278): querying existing contexts, closing a pre-existing offscreen
document, successfully creating the ephemeral offscreen document, sending it
the raster, invoking `chrome.offscreen.closeDocument()` after the create,
and returning a boolean. -/
inductive OffEv
  | checkContexts
  | closeExisting
  | createDoc
  | sendRaster
  | closeDoc
  | ret (ok : Bool)
deriving DecidableEq, Repr

/-- Outcome of the `Promise.race` of the offscreen round trip (lines
239-247): the offscreen document's response (carrying its success flag), a
rejected send, or the 10-second timeout rejection. -/
inductive SendOutcome
  | success (ok : Bool)
  | failure
  | timeout
deriving DecidableEq, Repr, Fintype

/-- Environment of one `createOffscreenForClipboard` call: whether
`chrome.offscreen` exists (line 202), whether an offscreen document already
exists (lines 210-225), whether `chrome.offscreen.createDocument` throws
(lines 230-234), and how the raster round trip ends. -/
structure OffEnv where
  offscreenAvailable : Bool
  hasExistingContext : Bool
  createFails : Bool
  send : SendOutcome
deriving DecidableEq, Repr, Fintype

/-- The event trace of `createOffscreenForClipboard` (lines 197-278). If the
offscreen API is missing it returns false at once. Otherwise it checks for
and closes any pre-existing offscreen document, then creates the ephemeral
document; if creation throws, the outer catch attempts a cleanup close and
returns false. With the document created, it sends the raster under the 10s
race: on a response, it closes the document and returns the response's
success flag (line 259: `response?.success || false`); when the send rejects
or the timeout fires, control lands in the catch block, which closes the
document (lines 269-274) and returns false. -/
def createOffscreenForClipboard (env : OffEnv) : List OffEv :=
  if env.offscreenAvailable = false then [.ret false]
  else
    [.checkContexts] ++
    (if env.hasExistingContext then [.closeExisting] else []) ++
    (if env.createFails then [.closeDoc, .ret false]
     else
       match env.send with
       | .success ok => [.createDoc, .sendRaster, .closeDoc, .ret ok]
       | .failure => [.createDoc, .sendRaster, .closeDoc, .ret false]
       | .timeout => [.createDoc, .sendRaster, .closeDoc, .ret false])

/-- C9: in the isolated-context clipboard stage, every ephemeral offscreen
document that is created is torn down on every outcome path — the trace of
any run in which `createDoc` occurs contains a `closeDoc` after it, whether
the round trip succeeded, failed, or hit the 10s timeout. -/
theorem c9_offscreen_always_closed (env : OffEnv)
    (hc : OffEv.createDoc ∈ createOffscreenForClipboard env) :
    OffEv.closeDoc ∈
      (createOffscreenForClipboard env).dropWhile
        (fun e => decide (e ≠ OffEv.createDoc)) := by
  revert hc
  revert env
  decide

/-- Witness for C9 at a run whose round trip hits the 10-second timeout: the
ephemeral document is still closed afterwards. -/
theorem c9_witness :
    OffEv.closeDoc ∈
      (createOffscreenForClipboard
          { offscreenAvailable := true, hasExistingContext := false,
            createFails := false, send := .timeout }).dropWhile
        (fun e => decide (e ≠ OffEv.createDoc)) :=
  c9_offscreen_always_closed
    { offscreenAvailable := true, hasExistingContext := false,
      createFails := false, send := .timeout } (by decide)

/-- The sequence of `window.scrollTo` calls a successful `captureFullPage`
run performs, in program order: one scroll per planned tile (line 164,
`window.scrollTo(scrollX, scrollY)` over the row-major plan) followed by the
restore `window.scrollTo(originalScrollPosition)` (line 214), which runs
before `combineAndCopyScreenshots` is called (line 218). `orig` is the
position recorded from `window.scrollX/scrollY` on entry (lines 71-75). -/
def fullPageScrollOps (orig : Int × Int) (pageW pageH vpW vpH : Nat) : List (Int × Int) :=
  ((planFullSurfaceTiles pageW pageH vpW vpH).map fun t =>
    ((t.originX : Int), (t.originY : Int))) ++ [orig]

/-- The scroll position left behind after executing a sequence of
`window.scrollTo` calls from initial position `s0`: each call overwrites the
position. -/
def finalScroll (s0 : Int × Int) (ops : List (Int × Int)) : Int × Int :=
  ops.foldl (fun _ p => p) s0

/-- C10: a successful full-page capture leaves the caller's scroll state
unchanged — the engine records the original scroll offset on entry, and
executing the run's scroll sequence from that position ends back at exactly
the recorded position, because the restore is the last scroll and precedes
composition. -/
theorem c10_scroll_position_restored (orig : Int × Int) (pageW pageH vpW vpH : Nat) :
    finalScroll orig (fullPageScrollOps orig pageW pageH vpW vpH) = orig := by
  rw [finalScroll, fullPageScrollOps, List.foldl_append]
  rfl

end Screenshot
